import Mathlib

/-!
Shallow embedding of `download_youtube.py` (single-file Streamlit YouTube
downloader) and verification of its specification claims.

Modelling conventions:
* Python `None` / absent dict keys are `Option.none`; `dict.get(k, d)` is
  `Option.getD`.
* The history file `progress/download_history.json` is modelled as
  `HistState := Option (List DownloadRecord)`: `none` means the file does not
  exist, `some l` means it holds the JSON array `l`.
* Calls into the external `yt_dlp` library are parameterised by oracles
  (`Oracle.fetchInfo`, `Oracle.transferOk`, an `extract` function for search):
  the claims quantify over all responses of the external library.
* `datetime.now().isoformat()` is an oracle string `Oracle.now`.
* Floating point in `format_file_size` is modelled exactly: the value divided
  repeatedly by 1024 is `n / 1024^k`, a dyadic rational that a double
  represents exactly for `n < 2^53`, and Python's `"%.1f"` formatting rounds
  it to one decimal digit with ties to even.
-/

namespace YTDL

/-- Metadata dictionary returned by `yt_dlp` extraction
(`get_video_info`). Only the keys read by `save_download_history` are
modelled; each is optional because the library may omit it. -/
structure VideoInfo where
  title : Option String
  webpage_url : Option String
  duration : Option Nat
  uploader : Option String
  filesize : Option Nat
  ext : Option String
deriving Repr, DecidableEq

/-- The record built by `save_download_history` (lines 30-38 of
`download_youtube.py`): exactly the seven fields title, url, duration,
uploader, download_date, file_size, format. -/
structure DownloadRecord where
  title : String
  url : String
  duration : Nat
  uploader : String
  download_date : String
  file_size : Nat
  format : String
deriving Repr, DecidableEq

/-- State of the persisted history file: `none` = file absent. -/
def HistState : Type := Option (List DownloadRecord)

/-- `load_download_history()`: returns the parsed array when the file
exists, `[]` otherwise. -/
def load_download_history : HistState → List DownloadRecord
  | none => []
  | some l => l

/-- The dict literal built inside `save_download_history` from the
video-info dict, with the source's defaults for each `.get`. -/
def downloadRecordOf (video_info : VideoInfo) (now : String) : DownloadRecord :=
  { title := video_info.title.getD "Unknown"
    url := video_info.webpage_url.getD ""
    duration := video_info.duration.getD 0
    uploader := video_info.uploader.getD "Unknown"
    download_date := now
    file_size := video_info.filesize.getD 0
    format := video_info.ext.getD "unknown" }

/-- `save_download_history(video_info)`: loads the current history, appends
the new record, writes the whole list back. -/
def save_download_history (video_info : VideoInfo) (now : String) (s : HistState) : HistState :=
  some (load_download_history s ++ [downloadRecordOf video_info now])

/-- `format_duration(seconds)`. `none` models Python `None`; `not seconds`
is `none` or `0`. No zero padding: Python f-string `{hours}:{minutes}:{seconds}`. -/
def format_duration : Option Nat → String
  | none => "Unknown"
  | some secs =>
    if secs = 0 then "Unknown"
    else
      let hours := secs / 3600
      let minutes := (secs % 3600) / 60
      let s := secs % 60
      if hours > 0 then
        toString hours ++ ":" ++ toString minutes ++ ":" ++ toString s
      else
        toString minutes ++ ":" ++ toString s

/-- Round `num / den` to the nearest integer, ties to even — the rounding
Python's `"%.1f"` applies to an exactly-represented value (`den > 0`). -/
def roundHalfEvenTenths (num den : Nat) : Nat :=
  let q := num / den
  let r := num % den
  if 2 * r > den then q + 1
  else if 2 * r < den then q
  else if q % 2 = 0 then q else q + 1

/-- Python `f"{size:.1f}"` where `size` is exactly `n / 1024^k`. -/
def fmtOneDecimal (n k : Nat) : String :=
  let t := roundHalfEvenTenths (10 * n) (1024 ^ k)
  toString (t / 10) ++ "." ++ toString (t % 10)

/-- The unit-selection loop of `format_file_size`: after `k` divisions the
float holds `n / 1024^k`, and `size_bytes < 1024.0` is `n < 1024^(k+1)`. -/
def format_file_size_loop : Nat → Nat → List String → String
  | n, k, [] => fmtOneDecimal n k ++ " TB"
  | n, k, u :: rest =>
    if n < 1024 ^ (k + 1) then fmtOneDecimal n k ++ " " ++ u
    else format_file_size_loop n (k + 1) rest

/-- `format_file_size(size_bytes)`. `none` models Python `None` or a value
`float()` rejects (the `except` branch); `not size_bytes or size_bytes == 0`
is `none` or `0`. -/
def format_file_size : Option Nat → String
  | none => "Unknown"
  | some n =>
    if n = 0 then "Unknown"
    else format_file_size_loop n 0 ["B", "KB", "MB", "GB"]

/-- Oracle for the external `yt_dlp` library and the clock, as seen by
`download_video_advanced`: `fetchInfo url` is the outcome of
`get_video_info(url)` (`none` = the call raised), `transferOk url` is whether
`ydl.download([url])` succeeds, `now` is `datetime.now().isoformat()`. -/
structure Oracle where
  fetchInfo : String → Option VideoInfo
  transferOk : String → Bool
  now : String

/-- `download_video_advanced(url, ...)` restricted to its observable
effects: the returned bool and the history-file state. Metadata fetch
first (failure aborts with `False`); then the transfer; on success
`save_download_history(video_info)` with the previously fetched metadata. -/
def download_video_advanced (o : Oracle) (url : String) (s : HistState) : Bool × HistState :=
  match o.fetchInfo url with
  | none => (false, s)
  | some video_info =>
    if o.transferOk url then
      (true, save_download_history video_info o.now s)
    else
      (false, s)

/-- Whether a `download_video_advanced` call on `url` reports success:
the metadata fetch yields info and the transfer succeeds. -/
def dlSuccess (o : Oracle) (url : String) : Bool :=
  (o.fetchInfo url).isSome && o.transferOk url

/-- Loop body of `download_multiple_videos`: walks the URL list in order,
threading the history state, incrementing the success or failure counter,
recording each URL passed to `download_video_advanced` in an attempt
trace. Returns (successful_downloads, failed_downloads, state, trace). -/
def download_multiple_loop (o : Oracle) :
    List String → Nat → Nat → HistState → List String →
    Nat × Nat × HistState × List String
  | [], succ, failed, s, trace => (succ, failed, s, trace)
  | url :: rest, succ, failed, s, trace =>
    let r := download_video_advanced o url s
    if r.1 then download_multiple_loop o rest (succ + 1) failed r.2 (trace ++ [url])
    else download_multiple_loop o rest succ (failed + 1) r.2 (trace ++ [url])

/-- `download_multiple_videos(urls, ...)`: sequential batch download over
raw URLs, ending in the final tally. -/
def download_multiple_videos (o : Oracle) (urls : List String) (s : HistState) :
    Nat × Nat × HistState × List String :=
  download_multiple_loop o urls 0 0 s []

/-- A selected search-result dict as read by `download_selected_videos`:
only `url` and `id` determine the download target. -/
structure SelectedVideo where
  title : Option String
  url : Option String
  id : Option String
deriving Repr, DecidableEq

/-- URL resolution inside `download_selected_videos`:
`video_url = video_data.get('url')`, and when that is falsy (`None` or
empty) fall back to `watch?v=` with `video_data.get('id', '')`. -/
def resolveSelectedUrl (v : SelectedVideo) : String :=
  match v.url with
  | some u =>
    if u = "" then "https://www.youtube.com/watch?v=" ++ v.id.getD ""
    else u
  | none => "https://www.youtube.com/watch?v=" ++ v.id.getD ""

/-- Loop body of `download_selected_videos`, mirroring
`download_multiple_loop` after URL resolution. -/
def download_selected_loop (o : Oracle) :
    List SelectedVideo → Nat → Nat → HistState → List String →
    Nat × Nat × HistState × List String
  | [], succ, failed, s, trace => (succ, failed, s, trace)
  | v :: rest, succ, failed, s, trace =>
    let url := resolveSelectedUrl v
    let r := download_video_advanced o url s
    if r.1 then download_selected_loop o rest (succ + 1) failed r.2 (trace ++ [url])
    else download_selected_loop o rest succ (failed + 1) r.2 (trace ++ [url])

/-- `download_selected_videos(selected_videos, ...)`: on an empty selection
the function warns and returns with no tally (`none`); otherwise it runs
the sequential loop and emits the final tally. -/
def download_selected_videos (o : Oracle) (videos : List SelectedVideo) (s : HistState) :
    Option (Nat × Nat × HistState × List String) :=
  match videos with
  | [] => none
  | _ :: _ => some (download_selected_loop o videos 0 0 s [])

/-- An entry of a flattened search result: the keys the resolution pass
reads (`id`, `url`) plus the ephemeral display fields. A `none` element of
the entries list models a falsy entry (`None`). -/
structure SearchEntry where
  id : Option String
  title : Option String
  url : Option String
  uploader : Option String
  view_count : Option Nat
deriving Repr, DecidableEq

/-- Outcome of `ydl.extract_info` in `search_youtube_advanced`: `err` = the
call raised (caught, search returns `[]`); `ok es` = a result dict whose
`entries` key holds `es` (`none` = key absent, defaulted to `[]`). -/
inductive ExtractResult
  | err : ExtractResult
  | ok : Option (List (Option SearchEntry)) → ExtractResult

/-- Truthiness of Python `entry.get('id')`: present and non-empty. -/
def truthyId : Option String → Bool
  | none => false
  | some i => !(i = "")

/-- Python `u.startswith('http')`, computed on the character sequence. -/
def startsWithHttp (u : String) : Bool :=
  "http".data.isPrefixOf u.data

/-- The condition under which the resolution pass rewrites `entry['url']`:
`not entry.get('url') or not entry['url'].startswith('http')`. -/
def urlNeedsFix : Option String → Bool
  | none => true
  | some u => u = "" || !(startsWithHttp u)

/-- One step of the URL-resolution pass over search entries (lines 229-232):
falsy entries and entries without a truthy id pass through; an entry whose
url is falsy or does not start with `http` gets
`https://www.youtube.com/watch?v=<id>`. -/
def resolve_entry : Option SearchEntry → Option SearchEntry
  | none => none
  | some e =>
    if truthyId e.id then
      if urlNeedsFix e.url then
        some { e with url := some ("https://www.youtube.com/watch?v=" ++ e.id.getD "") }
      else some e
    else some e

/-- The string handed to `ydl.extract_info` by `search_youtube_advanced`:
the query itself in playlist mode, otherwise the `ytsearchN:` prefixed
query. -/
def search_target (query : String) (max_results : Nat) (search_type : String) : String :=
  if search_type = "playlist" then query
  else "ytsearch" ++ toString max_results ++ ":" ++ query

/-- `search_youtube_advanced(query, max_results, search_type)` over an
extraction oracle: on an extraction error returns `[]`; otherwise takes the
`entries` of the result (default `[]`) and applies the URL-resolution pass
to each. -/
def search_youtube_advanced (extract : String → ExtractResult)
    (query : String) (max_results : Nat) (search_type : String) :
    List (Option SearchEntry) :=
  match extract (search_target query max_results search_type) with
  | .err => []
  | .ok es => (es.getD []).map resolve_entry

/-- A progress dict passed by `yt_dlp` to the hook created by
`DownloadProgress.create_progress_hook`. Optional fields model absent keys;
byte counts are naturals. -/
structure HookEvent where
  status : String
  filename : Option String
  percent_str : Option String
  speed_str : Option String
  eta_str : Option String
  downloaded_bytes : Option Nat
  total_bytes : Option Nat
  total_bytes_estimate : Option Nat
deriving Repr

/-- `os.path.basename`: the component after the last path separator. -/
def basename (p : String) : String :=
  (p.splitOn "/").getLastD p

/-- One call into the Streamlit container made by the progress hook. -/
inductive Emission
  | progressBar : ℚ → String → Emission
  | infoMsg : String → Emission
  | successMsg : String → Emission
deriving Repr, DecidableEq

/-- The total byte count the hook works with:
`d.get('total_bytes', d.get('total_bytes_estimate', 0))`. -/
def effTotal (d : HookEvent) : Nat :=
  d.total_bytes.getD (d.total_bytes_estimate.getD 0)

/-- The hook returned by `DownloadProgress.create_progress_hook`, as the
ordered list of container calls it makes on one event. On `downloading`:
a progress-bar update (only when the total is known and positive) with
fraction `min(downloaded/total, 1.0)`, then the composed status line. On
`finished`: a completion notice. -/
def progress_hook (d : HookEvent) : List Emission :=
  let filename := basename (d.filename.getD "Unknown")
  if d.status = "downloading" then
    let percent_str := (d.percent_str.getD "0%").trim
    let speed := (d.speed_str.getD "0KB/s").trim
    let eta := (d.eta_str.getD "Unknown").trim
    let downloaded := d.downloaded_bytes.getD 0
    let total := effTotal d
    let bar : List Emission :=
      if total > 0 then
        [Emission.progressBar (min ((downloaded : ℚ) / (total : ℚ)) 1) ("📥 " ++ filename)]
      else []
    let status_text :=
      "**Downloading:** " ++ filename ++ "\n" ++
      "📊 Progress: " ++ percent_str ++ " | 🚀 Speed: " ++ speed ++ " | ⏱️ ETA: " ++ eta
    bar ++ [Emission.infoMsg status_text]
  else if d.status = "finished" then
    [Emission.successMsg ("✅ **Download Complete:** " ++ filename)]
  else []

/-- Concrete metadata used to exercise the theorems. -/
def demoInfo : VideoInfo :=
  ⟨some "t", some "https://youtu.be/x", some 10, some "up", some 5, some "mp4"⟩

/-- Oracle on which every metadata fetch and every transfer succeeds. -/
def okOracle : Oracle :=
  { fetchInfo := fun _ => some demoInfo
    transferOk := fun _ => true
    now := "2026-01-02T00:00:00" }

/-- Oracle on which every metadata fetch raises. -/
def fetchFailOracle : Oracle :=
  { fetchInfo := fun _ => none
    transferOk := fun _ => true
    now := "2026-01-02T00:00:00" }

/-- Oracle on which metadata fetches succeed but every transfer raises. -/
def transferFailOracle : Oracle :=
  { fetchInfo := fun _ => some demoInfo
    transferOk := fun _ => false
    now := "2026-01-02T00:00:00" }

/-- Oracle succeeding exactly on URLs containing `"ok"`. -/
def mixedOracle : Oracle :=
  { fetchInfo := fun url => if url.splitOn "ok" = [url] then none else some demoInfo
    transferOk := fun _ => true
    now := "2026-01-02T00:00:00" }

/-- A search entry with an id but no url. -/
def demoEntry : SearchEntry := ⟨some "abc", some "T", none, none, none⟩

/-- An extraction oracle returning one entry lacking a url. -/
def demoExtract : String → ExtractResult :=
  fun _ => ExtractResult.ok (some [some demoEntry])

/-- A selected search result without a url. -/
def demoSelected : SelectedVideo := ⟨some "T", none, some "abc"⟩

/-- A `downloading` progress event with a known positive total. -/
def demoEvent : HookEvent :=
  { status := "downloading"
    filename := some "downloads/a.mp4"
    percent_str := some " 50.0%"
    speed_str := some "1MiB/s"
    eta_str := some "00:10"
    downloaded_bytes := some 512
    total_bytes := some 1024
    total_bytes_estimate := none }

/-! Theorems -/

/-- The boolean a `download_video_advanced` call reports depends only on
the oracle's answers for the URL, not on the history state. -/
theorem download_fst_eq (o : Oracle) (url : String) (s : HistState) :
    (download_video_advanced o url s).1 = dlSuccess o url := by
  cases h : o.fetchInfo url with
  | none => simp [download_video_advanced, dlSuccess, h]
  | some vi =>
    cases ht : o.transferOk url <;>
      simp [download_video_advanced, dlSuccess, h, ht]

/-- Counting both polarities of a boolean predicate exhausts the list. -/
theorem countP_not_add {α : Type} (p : α → Bool) (l : List α) :
    l.countP p + l.countP (fun a => !(p a)) = l.length := by
  induction l with
  | nil => rfl
  | cons a l ih =>
    simp only [List.countP_cons, List.length_cons]
    cases h : p a <;> simp [h] <;> omega

/-- Accumulator invariant of the raw-URL batch loop: counters grow by the
number of (un)successful URLs, the trace extends by the whole URL list. -/
theorem download_multiple_loop_spec (o : Oracle) (urls : List String) :
    ∀ (succ failed : Nat) (s : HistState) (trace : List String),
      (download_multiple_loop o urls succ failed s trace).1
        = succ + urls.countP (fun u => dlSuccess o u) ∧
      (download_multiple_loop o urls succ failed s trace).2.1
        = failed + urls.countP (fun u => !(dlSuccess o u)) ∧
      (download_multiple_loop o urls succ failed s trace).2.2.2
        = trace ++ urls := by
  induction urls with
  | nil => intro succ failed s trace; simp [download_multiple_loop]
  | cons url rest ih =>
    intro succ failed s trace
    have hfst := download_fst_eq o url s
    simp only [download_multiple_loop]
    by_cases hd : dlSuccess o url = true
    · rw [hd] at hfst
      simp only [hfst, if_true]
      obtain ⟨i1, i2, i3⟩ :=
        ih (succ + 1) failed (download_video_advanced o url s).2 (trace ++ [url])
      refine ⟨?_, ?_, ?_⟩
      · rw [i1, List.countP_cons]; simp [hd]; omega
      · rw [i2, List.countP_cons]; simp [hd]
      · rw [i3]; simp
    · have hd' : dlSuccess o url = false := by simpa using hd
      rw [hd'] at hfst
      simp only [hfst, Bool.false_eq_true, if_false]
      obtain ⟨i1, i2, i3⟩ :=
        ih succ (failed + 1) (download_video_advanced o url s).2 (trace ++ [url])
      refine ⟨?_, ?_, ?_⟩
      · rw [i1, List.countP_cons]; simp [hd']
      · rw [i2, List.countP_cons]; simp [hd']; omega
      · rw [i3]; simp

/-- Accumulator invariant of the selection batch loop, after URL
resolution. -/
theorem download_selected_loop_spec (o : Oracle) (videos : List SelectedVideo) :
    ∀ (succ failed : Nat) (s : HistState) (trace : List String),
      (download_selected_loop o videos succ failed s trace).1
        = succ + videos.countP (fun v => dlSuccess o (resolveSelectedUrl v)) ∧
      (download_selected_loop o videos succ failed s trace).2.1
        = failed + videos.countP (fun v => !(dlSuccess o (resolveSelectedUrl v))) ∧
      (download_selected_loop o videos succ failed s trace).2.2.2
        = trace ++ videos.map resolveSelectedUrl := by
  induction videos with
  | nil => intro succ failed s trace; simp [download_selected_loop]
  | cons v rest ih =>
    intro succ failed s trace
    have hfst := download_fst_eq o (resolveSelectedUrl v) s
    simp only [download_selected_loop]
    by_cases hd : dlSuccess o (resolveSelectedUrl v) = true
    · rw [hd] at hfst
      simp only [hfst, if_true]
      obtain ⟨i1, i2, i3⟩ :=
        ih (succ + 1) failed (download_video_advanced o (resolveSelectedUrl v) s).2
          (trace ++ [resolveSelectedUrl v])
      refine ⟨?_, ?_, ?_⟩
      · rw [i1, List.countP_cons]; simp [hd]; omega
      · rw [i2, List.countP_cons]; simp [hd]
      · rw [i3]; simp
    · have hd' : dlSuccess o (resolveSelectedUrl v) = false := by simpa using hd
      rw [hd'] at hfst
      simp only [hfst, Bool.false_eq_true, if_false]
      obtain ⟨i1, i2, i3⟩ :=
        ih succ (failed + 1) (download_video_advanced o (resolveSelectedUrl v) s).2
          (trace ++ [resolveSelectedUrl v])
      refine ⟨?_, ?_, ?_⟩
      · rw [i1, List.countP_cons]; simp [hd']
      · rw [i2, List.countP_cons]; simp [hd']; omega
      · rw [i3]; simp

/-- C2: History round-trip: for every valid record `r` and every prior
history state, `append(r)` (that is, `save_download_history` on metadata
building `r`) followed by `load()` yields the previous `load()` result with
`r` appended: the last element is `r` and the elements before it are the
prior sequence. Every valid record arises from some metadata, so the
quantification over records is exhaustive. -/
theorem history_roundtrip :
    (∀ (video_info : VideoInfo) (now : String) (s : HistState),
      load_download_history (save_download_history video_info now s)
        = load_download_history s ++ [downloadRecordOf video_info now] ∧
      (load_download_history (save_download_history video_info now s)).getLast?
        = some (downloadRecordOf video_info now) ∧
      (load_download_history (save_download_history video_info now s)).dropLast
        = load_download_history s) ∧
    (∀ r : DownloadRecord, ∃ (video_info : VideoInfo) (now : String),
      downloadRecordOf video_info now = r) := by
  constructor
  · intro vi now s
    refine ⟨rfl, ?_, ?_⟩
    · simp [save_download_history, load_download_history]
    · simp [save_download_history, load_download_history]
  · intro r
    exact ⟨⟨some r.title, some r.url, some r.duration, some r.uploader,
            some r.file_size, some r.format⟩, r.download_date, rfl⟩

/-- C9: every record appended to the history has exactly the seven fields
of `DownloadRecord` (it is a total value of that structure type), and each
field falls back to its default when the metadata key is absent: title
`"Unknown"`, url `""`, duration `0`, uploader `"Unknown"`, file_size `0`,
format `"unknown"`; `download_date` is the current timestamp. -/
theorem download_record_defaults (video_info : VideoInfo) (now : String) :
    (video_info.title = none → (downloadRecordOf video_info now).title = "Unknown") ∧
    (video_info.webpage_url = none → (downloadRecordOf video_info now).url = "") ∧
    (video_info.duration = none → (downloadRecordOf video_info now).duration = 0) ∧
    (video_info.uploader = none → (downloadRecordOf video_info now).uploader = "Unknown") ∧
    (video_info.filesize = none → (downloadRecordOf video_info now).file_size = 0) ∧
    (video_info.ext = none → (downloadRecordOf video_info now).format = "unknown") ∧
    (downloadRecordOf video_info now).download_date = now := by
  refine ⟨?_, ?_, ?_, ?_, ?_, ?_, rfl⟩ <;>
    (intro h; simp [downloadRecordOf, h])

/-- Witness for C9 at metadata with every key absent. -/
theorem download_record_defaults_witness :
    (downloadRecordOf ⟨none, none, none, none, none, none⟩ "2026-01-01").title = "Unknown" ∧
    (downloadRecordOf ⟨none, none, none, none, none, none⟩ "2026-01-01").url = "" ∧
    (downloadRecordOf ⟨none, none, none, none, none, none⟩ "2026-01-01").duration = 0 ∧
    (downloadRecordOf ⟨none, none, none, none, none, none⟩ "2026-01-01").uploader = "Unknown" ∧
    (downloadRecordOf ⟨none, none, none, none, none, none⟩ "2026-01-01").file_size = 0 ∧
    (downloadRecordOf ⟨none, none, none, none, none, none⟩ "2026-01-01").format = "unknown" ∧
    (downloadRecordOf ⟨none, none, none, none, none, none⟩ "2026-01-01").download_date
      = "2026-01-01" := by
  have h := download_record_defaults ⟨none, none, none, none, none, none⟩ "2026-01-01"
  exact ⟨h.1 rfl, h.2.1 rfl, h.2.2.1 rfl, h.2.2.2.1 rfl, h.2.2.2.2.1 rfl,
         h.2.2.2.2.2.1 rfl, h.2.2.2.2.2.2⟩

/-- C4: `format_duration` returns `"Unknown"` on `None`/`0`, renders
`hours:minutes:seconds` (no zero-padding) when hours > 0 and
`minutes:seconds` otherwise; in particular the four quoted examples. -/
theorem format_duration_spec :
    format_duration none = "Unknown" ∧
    format_duration (some 0) = "Unknown" ∧
    format_duration (some 3661) = "1:1:1" ∧
    format_duration (some 125) = "2:5" ∧
    (∀ n : Nat, 3600 ≤ n →
      format_duration (some n)
        = toString (n / 3600) ++ ":" ++ toString (n % 3600 / 60) ++ ":" ++ toString (n % 60)) ∧
    (∀ n : Nat, 0 < n → n < 3600 →
      format_duration (some n) = toString (n % 3600 / 60) ++ ":" ++ toString (n % 60)) := by
  refine ⟨rfl, rfl, by decide, by decide, ?_, ?_⟩
  · intro n h
    have h0 : ¬ n = 0 := by omega
    have hh : 0 < n / 3600 := Nat.div_pos h (by norm_num)
    simp [format_duration, h0, hh]
  · intro n hpos hlt
    have h0 : ¬ n = 0 := by omega
    have hh : n / 3600 = 0 := Nat.div_eq_of_lt hlt
    simp [format_duration, h0, hh]

/-- Witness for C4: the hour and minute branches at 3661 and 125. -/
theorem format_duration_spec_witness :
    format_duration (some 3661)
      = toString (3661 / 3600) ++ ":" ++ toString (3661 % 3600 / 60) ++ ":" ++ toString (3661 % 60) ∧
    format_duration (some 125) = toString (125 % 3600 / 60) ++ ":" ++ toString (125 % 60) :=
  ⟨format_duration_spec.2.2.2.2.1 3661 (by norm_num),
   format_duration_spec.2.2.2.2.2 125 (by norm_num) (by norm_num)⟩

/-- C5: `format_file_size` returns `"Unknown"` on `None`/non-numeric/`0`,
otherwise repeatedly divides by 1024 taking the first unit in B, KB, MB, GB
under which the value drops below 1024 (falling back to TB) and renders one
decimal place; in particular the quoted examples, and in general the sub-KB
band renders `n.0 B`, the KB band `fmtOneDecimal n 1 ++ " KB"`, and
everything from `1024^4` renders TB. -/
theorem format_file_size_spec :
    format_file_size none = "Unknown" ∧
    format_file_size (some 0) = "Unknown" ∧
    format_file_size (some 1024) = "1.0 KB" ∧
    format_file_size (some 1536) = "1.5 KB" ∧
    format_file_size (some 1073741824) = "1.0 GB" ∧
    (∀ n : Nat, 0 < n → n < 1024 →
      format_file_size (some n) = toString n ++ ".0 B") ∧
    (∀ n : Nat, 1024 ≤ n → n < 1024 ^ 2 →
      format_file_size (some n) = fmtOneDecimal n 1 ++ " KB") ∧
    (∀ n : Nat, 1024 ^ 4 ≤ n →
      format_file_size (some n) = fmtOneDecimal n 4 ++ " TB") := by
  refine ⟨rfl, rfl, by decide, by decide, by decide, ?_, ?_, ?_⟩
  · intro n hpos hlt
    have h0 : ¬ n = 0 := by omega
    have hloop : format_file_size (some n) = fmtOneDecimal n 0 ++ " " ++ "B" := by
      simp [format_file_size, h0, format_file_size_loop, hlt]
    have ht : roundHalfEvenTenths (10 * n) (1024 ^ 0) = 10 * n := by
      simp [roundHalfEvenTenths, Nat.mod_one, Nat.div_one]
    have hfmt : fmtOneDecimal n 0 = toString n ++ "." ++ toString (0 : Nat) := by
      simp only [fmtOneDecimal, ht, show 10 * n / 10 = n by omega,
        show 10 * n % 10 = 0 by omega]
    rw [hloop, hfmt]
    simp only [String.append_assoc]
    congr 1
  · intro n h1 h2
    have h0 : ¬ n = 0 := by omega
    have hb : ¬ n < 1024 := by omega
    have hk : n < 1048576 := by norm_num at h2; omega
    have hloop : format_file_size (some n) = fmtOneDecimal n 1 ++ " " ++ "KB" := by
      simp [format_file_size, h0, format_file_size_loop, hb, hk]
    rw [hloop, String.append_assoc]
    rfl
  · intro n h4
    have h4' : 1099511627776 ≤ n := by norm_num at h4; omega
    have h0 : ¬ n = 0 := by omega
    have hb1 : ¬ n < 1024 := by omega
    have hb2 : ¬ n < 1048576 := by omega
    have hb3 : ¬ n < 1073741824 := by omega
    have hb4 : ¬ n < 1099511627776 := by omega
    simp [format_file_size, h0, format_file_size_loop, hb1, hb2, hb3, hb4]

/-- Witness for C5: the band clauses at 512 bytes, 1536 bytes and 5 TB. -/
theorem format_file_size_spec_witness :
    format_file_size (some 512) = toString 512 ++ ".0 B" ∧
    format_file_size (some 1536) = fmtOneDecimal 1536 1 ++ " KB" ∧
    format_file_size (some (5 * 1024 ^ 4)) = fmtOneDecimal (5 * 1024 ^ 4) 4 ++ " TB" :=
  ⟨format_file_size_spec.2.2.2.2.2.1 512 (by norm_num) (by norm_num),
   format_file_size_spec.2.2.2.2.2.2.1 1536 (by norm_num) (by norm_num),
   format_file_size_spec.2.2.2.2.2.2.2 (5 * 1024 ^ 4) (by norm_num)⟩

/-- C1: `download_video_advanced` returns `False` and leaves the history
untouched when the metadata fetch fails; when both the metadata fetch and
the transfer succeed it returns `True` and the history gains exactly one
record, built from the previously fetched metadata; on a transfer failure
after a successful fetch it returns `False` (and appends nothing). -/
theorem download_video_advanced_spec (o : Oracle) (url : String) (s : HistState) :
    (o.fetchInfo url = none → download_video_advanced o url s = (false, s)) ∧
    (∀ video_info, o.fetchInfo url = some video_info → o.transferOk url = true →
      (download_video_advanced o url s).1 = true ∧
      load_download_history (download_video_advanced o url s).2
        = load_download_history s ++ [downloadRecordOf video_info o.now]) ∧
    (∀ video_info, o.fetchInfo url = some video_info → o.transferOk url = false →
      download_video_advanced o url s = (false, s)) := by
  refine ⟨?_, ?_, ?_⟩
  · intro h; simp [download_video_advanced, h]
  · intro vi h ht
    simp [download_video_advanced, h, ht, save_download_history, load_download_history]
  · intro vi h ht
    simp [download_video_advanced, h, ht]

/-- Witness for C1: the three branches at concrete oracles, on the
initially absent history file. -/
theorem download_video_advanced_spec_witness :
    download_video_advanced fetchFailOracle "u" none = (false, none) ∧
    (download_video_advanced okOracle "u" none).1 = true ∧
    load_download_history (download_video_advanced okOracle "u" none).2
      = load_download_history none ++ [downloadRecordOf demoInfo okOracle.now] ∧
    download_video_advanced transferFailOracle "u" none = (false, none) :=
  ⟨(download_video_advanced_spec fetchFailOracle "u" none).1 rfl,
   ((download_video_advanced_spec okOracle "u" none).2.1 demoInfo rfl rfl).1,
   ((download_video_advanced_spec okOracle "u" none).2.1 demoInfo rfl rfl).2,
   (download_video_advanced_spec transferFailOracle "u" none).2.2 demoInfo rfl rfl⟩

/-- C3 counterexample: on an empty target list the selection orchestrator
(`download_selected_videos`) warns and returns with no final tally at all,
so it does not report the 0 successes and 0 failures the claim requires. -/
theorem download_selected_empty_no_tally :
    download_selected_videos okOracle [] none = none := rfl

/-- C3 (amended): the raw-URL batch orchestrator invokes download once per
target, in order, with no early abort, and for `n` targets of which `k`
fail it tallies `n - k` successes and `k` failures; the selection
orchestrator does the same on every nonempty selection (over the resolved
URLs), while an empty selection is rejected up front with a warning and no
download attempt and no tally. -/
theorem batch_tally_spec (o : Oracle) (urls : List String)
    (videos : List SelectedVideo) (s s' : HistState) :
    (download_multiple_videos o urls s).2.2.2 = urls ∧
    (download_multiple_videos o urls s).2.1
      = urls.countP (fun u => !(dlSuccess o u)) ∧
    (download_multiple_videos o urls s).1
      = urls.length - urls.countP (fun u => !(dlSuccess o u)) ∧
    (download_multiple_videos o urls s).1 + (download_multiple_videos o urls s).2.1
      = urls.length ∧
    (videos ≠ [] → ∃ t, download_selected_videos o videos s' = some t ∧
      t.2.2.2 = videos.map resolveSelectedUrl ∧
      t.2.1 = videos.countP (fun v => !(dlSuccess o (resolveSelectedUrl v))) ∧
      t.1 = videos.length - videos.countP (fun v => !(dlSuccess o (resolveSelectedUrl v))) ∧
      t.1 + t.2.1 = videos.length) := by
  obtain ⟨m1, m2, m3⟩ := download_multiple_loop_spec o urls 0 0 s []
  have hcount := countP_not_add (fun u => dlSuccess o u) urls
  refine ⟨by simpa using m3, ?_, ?_, ?_, ?_⟩
  · simpa using m2
  · have h1 : (download_multiple_videos o urls s).1
        = urls.countP (fun u => dlSuccess o u) := by simpa using m1
    rw [h1]
    omega
  · have h1 : (download_multiple_videos o urls s).1
        = urls.countP (fun u => dlSuccess o u) := by simpa using m1
    have h2 : (download_multiple_videos o urls s).2.1
        = urls.countP (fun u => !(dlSuccess o u)) := by simpa using m2
    rw [h1, h2]
    omega
  · intro hne
    obtain ⟨v, rest, rfl⟩ := List.exists_cons_of_ne_nil hne
    refine ⟨download_selected_loop o (v :: rest) 0 0 s' [], rfl, ?_, ?_, ?_, ?_⟩ <;>
      obtain ⟨l1, l2, l3⟩ := download_selected_loop_spec o (v :: rest) 0 0 s' []
    · simpa using l3
    · simpa using l2
    · have hc := countP_not_add (fun v => dlSuccess o (resolveSelectedUrl v)) (v :: rest)
      have h1 : (download_selected_loop o (v :: rest) 0 0 s' []).1
          = (v :: rest).countP (fun v => dlSuccess o (resolveSelectedUrl v)) := by simpa using l1
      rw [h1]
      omega
    · have hc := countP_not_add (fun v => dlSuccess o (resolveSelectedUrl v)) (v :: rest)
      have h1 : (download_selected_loop o (v :: rest) 0 0 s' []).1
          = (v :: rest).countP (fun v => dlSuccess o (resolveSelectedUrl v)) := by simpa using l1
      have h2 : (download_selected_loop o (v :: rest) 0 0 s' []).2.1
          = (v :: rest).countP (fun v => !(dlSuccess o (resolveSelectedUrl v))) := by simpa using l2
      rw [h1, h2]
      omega

/-- Witness for C3 (amended) on a nonempty selection at a concrete oracle. -/
theorem batch_tally_spec_witness :
    ∃ t, download_selected_videos okOracle [demoSelected] none = some t ∧
      t.2.2.2 = [demoSelected].map resolveSelectedUrl ∧
      t.2.1 = [demoSelected].countP
        (fun v => !(dlSuccess okOracle (resolveSelectedUrl v))) ∧
      t.1 = [demoSelected].length - [demoSelected].countP
        (fun v => !(dlSuccess okOracle (resolveSelectedUrl v))) ∧
      t.1 + t.2.1 = [demoSelected].length :=
  (batch_tally_spec okOracle [] [demoSelected] none none).2.2.2.2 (by simp)

/-- C6: any entry of the library's search response that has a (truthy) id
and lacks a fully-qualified URL (missing, empty, or not starting with
`http`) appears in the search result with its URL resolved to
`https://www.youtube.com/watch?v=<id>`. -/
theorem search_url_synthesis (extract : String → ExtractResult)
    (query : String) (max_results : Nat) (search_type : String)
    (es : List (Option SearchEntry)) (e : SearchEntry) (i : String) :
    extract (search_target query max_results search_type) = ExtractResult.ok (some es) →
    some e ∈ es →
    e.id = some i → i ≠ "" →
    urlNeedsFix e.url = true →
    some { e with url := some ("https://www.youtube.com/watch?v=" ++ i) }
      ∈ search_youtube_advanced extract query max_results search_type := by
  intro hx hm hid hne hfix
  have hres : resolve_entry (some e)
      = some { e with url := some ("https://www.youtube.com/watch?v=" ++ i) } := by
    have hti : truthyId (some i) = true := by simp [truthyId, hne]
    simp [resolve_entry, hid, hti, hfix]
  simp only [search_youtube_advanced, hx, Option.getD_some]
  exact hres ▸ List.mem_map_of_mem resolve_entry hm

/-- Witness for C6: a response with one id-only entry. -/
theorem search_url_synthesis_witness :
    some { demoEntry with url := some ("https://www.youtube.com/watch?v=" ++ "abc") }
      ∈ search_youtube_advanced demoExtract "q" 10 "video" :=
  search_url_synthesis demoExtract "q" 10 "video" [some demoEntry] demoEntry "abc"
    rfl (by simp) rfl (by decide) rfl

/-- C7: in playlist mode the string handed to the extraction library is the
query itself, and the search result is the same for any two values of
`max_results` given the same library responses. -/
theorem playlist_ignores_max_results (extract : String → ExtractResult)
    (query : String) (m1 m2 : Nat) :
    search_target query m1 "playlist" = query ∧
    search_youtube_advanced extract query m1 "playlist"
      = search_youtube_advanced extract query m2 "playlist" := by
  refine ⟨by simp [search_target], ?_⟩
  simp [search_youtube_advanced, search_target]

/-- C10: the URL-resolution pass leaves falsy entries and entries without a
truthy id entirely unchanged, leaves entries whose url starts with `http`
unchanged, and rewrites only the url field (to the synthesized watch URL)
of an entry with a truthy id whose url is falsy or not `http`-prefixed —
every other field is untouched. -/
theorem resolve_entry_frame (eOpt : Option SearchEntry) :
    (eOpt = none → resolve_entry eOpt = eOpt) ∧
    (∀ e, eOpt = some e → truthyId e.id = false → resolve_entry eOpt = eOpt) ∧
    (∀ e u, eOpt = some e → e.url = some u → startsWithHttp u = true →
      resolve_entry eOpt = eOpt) ∧
    (∀ e i, eOpt = some e → e.id = some i → i ≠ "" → urlNeedsFix e.url = true →
      resolve_entry eOpt
        = some { e with url := some ("https://www.youtube.com/watch?v=" ++ i) } ∧
      ∀ e', resolve_entry eOpt = some e' →
        e'.id = e.id ∧ e'.title = e.title ∧ e'.uploader = e.uploader ∧
        e'.view_count = e.view_count) := by
  refine ⟨?_, ?_, ?_, ?_⟩
  · intro h; subst h; rfl
  · intro e he hid; subst he; simp [resolve_entry, hid]
  · intro e u he hu hs; subst he
    by_cases hid : truthyId e.id = true
    · have hne : ¬ u = "" := by
        intro h; rw [h] at hs; exact absurd hs (by decide)
      have hfix : urlNeedsFix e.url = false := by
        simp [urlNeedsFix, hu, hs, hne]
      simp [resolve_entry, hid, hfix]
    · have hid' : truthyId e.id = false := by simpa using hid
      simp [resolve_entry, hid']
  · intro e i he hid hne hfix; subst he
    have hti : truthyId (some i) = true := by simp [truthyId, hne]
    have hres : resolve_entry (some e)
        = some { e with url := some ("https://www.youtube.com/watch?v=" ++ i) } := by
      simp [resolve_entry, hid, hti, hfix]
    refine ⟨hres, ?_⟩
    intro e' he'
    rw [hres] at he'
    cases he'
    exact ⟨rfl, rfl, rfl, rfl⟩

/-- Witness for C10: the four branches at concrete entries. -/
theorem resolve_entry_frame_witness :
    resolve_entry none = none ∧
    resolve_entry (some ⟨none, some "T", none, none, none⟩)
      = some ⟨none, some "T", none, none, none⟩ ∧
    resolve_entry (some ⟨some "abc", some "T", some "https://x", none, none⟩)
      = some ⟨some "abc", some "T", some "https://x", none, none⟩ ∧
    resolve_entry (some demoEntry)
      = some { demoEntry with url := some ("https://www.youtube.com/watch?v=" ++ "abc") } :=
  ⟨(resolve_entry_frame none).1 rfl,
   (resolve_entry_frame (some ⟨none, some "T", none, none, none⟩)).2.1 _ rfl rfl,
   (resolve_entry_frame (some ⟨some "abc", some "T", some "https://x", none, none⟩)).2.2.1
     _ "https://x" rfl rfl (by decide),
   ((resolve_entry_frame (some demoEntry)).2.2.2 demoEntry "abc" rfl rfl (by decide) rfl).1⟩

/-- C8: on every `downloading` event whose effective total
(`total_bytes`, else `total_bytes_estimate`) is positive, the hook emits a
progress-bar fraction within `[0, 1]`; and on every `downloading` event,
total known or not, it emits the composed status line (percent, speed,
ETA, filename). -/
theorem progress_hook_spec (d : HookEvent) :
    (d.status = "downloading" → 0 < effTotal d →
      ∃ v t, Emission.progressBar v t ∈ progress_hook d ∧ 0 ≤ v ∧ v ≤ 1) ∧
    (d.status = "downloading" →
      Emission.infoMsg
        ("**Downloading:** " ++ basename (d.filename.getD "Unknown") ++ "\n" ++
          "📊 Progress: " ++ (d.percent_str.getD "0%").trim ++
          " | 🚀 Speed: " ++ (d.speed_str.getD "0KB/s").trim ++
          " | ⏱️ ETA: " ++ (d.eta_str.getD "Unknown").trim)
        ∈ progress_hook d) := by
  constructor
  · intro hs htot
    refine ⟨min ((d.downloaded_bytes.getD 0 : ℚ) / (effTotal d : ℚ)) 1,
      "📥 " ++ basename (d.filename.getD "Unknown"), ?_, ?_, ?_⟩
    · simp [progress_hook, hs, htot]
    · exact le_min (div_nonneg (Nat.cast_nonneg _) (Nat.cast_nonneg _)) zero_le_one
    · exact min_le_right _ _
  · intro hs
    by_cases htot : 0 < effTotal d <;> simp [progress_hook, hs, htot]

/-- Witness for C8 at a concrete downloading event with a known total. -/
theorem progress_hook_spec_witness :
    (∃ v t, Emission.progressBar v t ∈ progress_hook demoEvent ∧ 0 ≤ v ∧ v ≤ 1) ∧
    Emission.infoMsg
      ("**Downloading:** " ++ basename (demoEvent.filename.getD "Unknown") ++ "\n" ++
        "📊 Progress: " ++ (demoEvent.percent_str.getD "0%").trim ++
        " | 🚀 Speed: " ++ (demoEvent.speed_str.getD "0KB/s").trim ++
        " | ⏱️ ETA: " ++ (demoEvent.eta_str.getD "Unknown").trim)
      ∈ progress_hook demoEvent :=
  ⟨(progress_hook_spec demoEvent).1 rfl (by decide),
   (progress_hook_spec demoEvent).2 rfl⟩

end YTDL
